import Mathlib

/-!
Verification of the clinic patient-management server (Express + better-sqlite3).

The server keeps three SQLite tables (`users`, `patients`, `visits`) and
exposes JSON endpoints for signup, patient CRUD, visit recording and a
report summary.  This file is a shallow embedding of those handlers:

* SQLite rows become Lean structures; the database becomes a `DB` record of
  row lists together with the AUTOINCREMENT counters.
* JSON request values are modelled by `JVal` (JS `undefined`, `null`,
  strings and numbers).  better-sqlite3 throws when asked to bind
  `undefined`, while `null` binds as SQL NULL; this distinction is what the
  handlers' try/catch blocks turn into 500 responses.
* Each Express handler becomes a function `DB → request → Resp × DB`.
* SQLite's `strftime('%m', ..)` / `strftime('%Y', ..)` text output and JS
  `toString`/`padStart` are modelled by `decRepr` / `padStart2` over a
  structured `Date` (year/month/day); `%Y` is modelled without zero padding,
  which is faithful for the years ≥ 1000 that `new Date().toISOString()`
  and `CURRENT_TIMESTAMP` produce.
* JSON numbers are modelled as naturals (`JVal.num : Nat`); no claim
  involves negative or fractional request values, and REAL vitals are
  stored uninterpreted.
-/

/-- A JavaScript/JSON value as it arrives in a request body and is bound
into a SQL statement.  `undefined` is JS `undefined` (an absent body field). -/
inductive JVal where
  | undefined : JVal
  | null : JVal
  | str : String → JVal
  | num : Nat → JVal
deriving DecidableEq

/-- JS truthiness for the values we model: `undefined`, `null`, `""` and
`0` are falsy. -/
def JVal.falsy : JVal → Bool
  | .undefined => true
  | .null => true
  | .str s => s = ""
  | .num n => n = 0

/-- The JS `||` default idiom (`mrn || generated`, `role || 'staff'`). -/
def jsOr (v d : JVal) : JVal := if v.falsy then d else v

/-- The `n` helper of `POST /api/visits`:
`(val === '' || val === undefined) ? null : val`. -/
def jsN (v : JVal) : JVal := if v = .undefined ∨ v = .str "" then .null else v

/-- Fuel-driven decimal digit list of a natural number (most significant
first).  The fuel argument only has to exceed the number of digits. -/
def decDigitsAux : Nat → Nat → List Char
  | 0, _ => []
  | fuel + 1, n =>
    if n < 10 then [Nat.digitChar n]
    else decDigitsAux fuel (n / 10) ++ [Nat.digitChar (n % 10)]

/-- Decimal rendering of a natural number.  Models JS `Number.toString`,
SQLite integer-to-text affinity and `strftime('%Y', ..)` output. -/
def decRepr (n : Nat) : String := String.mk (decDigitsAux (n + 1) n)

/-- JS `String.prototype.padStart(2, '0')`. -/
def padStart2 (s : String) : String :=
  if s.length ≥ 2 then s else String.mk (List.replicate (2 - s.length) '0') ++ s

/-- A calendar timestamp as stored in `created_at` / `visit_date`
columns.  The handlers only ever inspect the month and year parts
(`strftime('%m'/'%Y', ..)`), so the time of day is not modelled. -/
structure Date where
  year : Nat
  month : Nat
  day : Nat
deriving DecidableEq

/-- `strftime('%m', d)`: the two-digit month text (`"01"`..`"12"`). -/
def strftimeM (d : Date) : String := padStart2 (decRepr d.month)

/-- `strftime('%Y', d)`: the year text (faithful for years ≥ 1000). -/
def strftimeY (d : Date) : String := decRepr d.year

/-- Does `hay` start with `needle`? -/
def leadMatch : List Char → List Char → Bool
  | [], _ => true
  | _ :: _, [] => false
  | a :: as, b :: bs => a == b && leadMatch as bs

/-- Is `needle` a contiguous sublist of `hay`? -/
def scanContains (needle : List Char) : List Char → Bool
  | [] => needle.isEmpty
  | c :: t => leadMatch needle (c :: t) || scanContains needle t

/-- ASCII lower-casing of one character; SQLite's LIKE folds case for
ASCII letters only. -/
def asciiLower (c : Char) : Char :=
  if 65 ≤ c.toNat ∧ c.toNat ≤ 90 then Char.ofNat (c.toNat + 32) else c

/-- SQLite `hay LIKE '%pat%'` on non-NULL text: substring containment,
case-insensitive on ASCII letters. -/
def likeContains (hay pat : String) : Bool :=
  scanContains (pat.toList.map asciiLower) (hay.toList.map asciiLower)

/-- Value stored into a TEXT-affinity column (NULL when the request held
`null`; binding `undefined` never reaches the column — it throws first). -/
def JVal.toColS : JVal → Option String
  | .str s => some s
  | .num n => some (decRepr n)
  | _ => none

/-- Value stored into an INTEGER-affinity column.  Digit-string affinity
conversion and SQLite's flexible typing of non-numeric text are not
modelled: no claim sends text into an INTEGER column. -/
def JVal.toColI : JVal → Option Nat
  | .num n => some n
  | _ => none

/-- A row of the `users` table.  `password` holds the bcrypt hash; hashing
is kept abstract (the stored value is the request value) since no claim
inspects it. -/
structure User where
  id : Nat
  username : String
  password : Option String
  full_name : Option String
  role : Option String
deriving DecidableEq

/-- A row of the `patients` table. -/
structure Patient where
  id : Nat
  mrn : Option String
  name : String
  age : Option Nat
  gender : Option String
  contact : Option String
  patient_type : Option String
  conditions : Option String
  region : Option String
  zone : Option String
  woreda : Option String
  kebele : Option String
  treatment_type : Option String
  diabetes_type : Option String
  cvd_risk : Option String
  cvd_treatment_type : Option String
  created_at : Date
deriving DecidableEq

/-- A row of the `visits` table.  The vitals/labs columns keep the bound
`JVal` (`.null` or a value) uninterpreted: no claim computes with them. -/
structure Visit where
  id : Nat
  patient_id : Option Nat
  visit_date : Date
  systolic_bp : JVal
  diastolic_bp : JVal
  heart_rate : JVal
  temperature : JVal
  respiratory_rate : JVal
  spo2 : JVal
  blood_sugar_level : JVal
  hba1c : JVal
  creatinine : JVal
  cholesterol : JVal
  triglycerides : JVal
  urinalysis : JVal
  weight : JVal
  notes : JVal
  complications : JVal
deriving DecidableEq

/-- The SQLite database `clinic.db`: the three tables plus their
AUTOINCREMENT counters. -/
structure DB where
  users : List User
  patients : List Patient
  visits : List Visit
  nextUserId : Nat
  nextPatientId : Nat
  nextVisitId : Nat
deriving DecidableEq

def DB.empty : DB := ⟨[], [], [], 1, 1, 1⟩

/-- An HTTP response, reduced to what the claims inspect: the status code
and the `error` field of the JSON body (`none` on success). -/
structure Resp where
  status : Nat
  error : Option String
deriving DecidableEq

def okResp : Resp := ⟨200, none⟩

def errResp (code : Nat) (msg : String) : Resp := ⟨code, some msg⟩

/-- Body of `POST /api/auth/signup`. -/
structure SignupReq where
  username : JVal
  password : JVal
  full_name : JVal
  role : JVal

/-- `POST /api/auth/signup`.  Missing username or password → 400; a
duplicate username raises `SQLITE_CONSTRAINT_UNIQUE`, which this handler
turns into 400 "Username already exists"; anything else in the catch
becomes a generic 500.  Pre-checking the duplicate is equivalent to the
constraint error because each request runs to completion by itself. -/
def signup (s : DB) (req : SignupReq) : Resp × DB :=
  if req.username.falsy || req.password.falsy then
    (errResp 400 "Username and password are required", s)
  else
    match req.username.toColS with
    | none => (errResp 500 "Internal server error", s)
    | some uname =>
      if s.users.any (fun u => u.username = uname) then
        (errResp 400 "Username already exists", s)
      else
        (okResp,
         { s with
           users := s.users ++ [{
             id := s.nextUserId
             username := uname
             password := req.password.toColS
             full_name := (jsOr req.full_name req.username).toColS
             role := (jsOr req.role (.str "staff")).toColS }]
           nextUserId := s.nextUserId + 1 })

/-- Body of `POST /api/patients`.  `created_at` is an ISO timestamp
string; it is modelled structurally (`none` = absent/falsy, defaulted to
the request time). -/
structure PatientReq where
  mrn : JVal
  name : JVal
  age : JVal
  gender : JVal
  contact : JVal
  conditions : JVal
  patient_type : JVal
  region : JVal
  zone : JVal
  woreda : JVal
  kebele : JVal
  treatment_type : JVal
  diabetes_type : JVal
  cvd_risk : JVal
  cvd_treatment_type : JVal
  created_at : Option Date

/-- The body fields that `POST /api/patients` / `PUT /api/patients/:id`
bind into the statement without a default; a JS `undefined` among them
makes better-sqlite3 throw, which the handler reports as 500. -/
def PatientReq.hasUndefBound (req : PatientReq) : Bool :=
  req.name = .undefined || req.age = .undefined || req.gender = .undefined ||
  req.contact = .undefined || req.conditions = .undefined || req.region = .undefined ||
  req.zone = .undefined || req.woreda = .undefined || req.kebele = .undefined ||
  req.treatment_type = .undefined || req.diabetes_type = .undefined ||
  req.cvd_risk = .undefined || req.cvd_treatment_type = .undefined

/-- `Math.floor(100000 + Math.random() * 900000).toString()`: the
pseudo-random 6-digit MRN, with the random draw passed in as `rnd`. -/
def genMrn (rnd : Nat) : String := decRepr (100000 + rnd % 900000)

/-- `POST /api/patients`.  No field validation is performed; the INSERT
either succeeds (any age, any patient_type) or throws — binding
`undefined`, the `name` NOT NULL constraint, or the `mrn` UNIQUE
constraint — and every throw is caught as a generic 500. -/
def createPatient (s : DB) (req : PatientReq) (rnd : Nat) (now : Date) :
    Resp × DB :=
  let finalMrn := jsOr req.mrn (.str (genMrn rnd))
  if req.hasUndefBound then (errResp 500 "Internal server error", s)
  else
    match req.name.toColS with
    | none => (errResp 500 "Internal server error", s)
    | some nm =>
      if s.patients.any (fun p => p.mrn = finalMrn.toColS) then
        (errResp 500 "Internal server error", s)
      else
        (okResp,
         { s with
           patients := s.patients ++ [{
             id := s.nextPatientId
             mrn := finalMrn.toColS
             name := nm
             age := req.age.toColI
             gender := req.gender.toColS
             contact := req.contact.toColS
             patient_type := (jsOr req.patient_type (.str "New")).toColS
             conditions := req.conditions.toColS
             region := req.region.toColS
             zone := req.zone.toColS
             woreda := req.woreda.toColS
             kebele := req.kebele.toColS
             treatment_type := req.treatment_type.toColS
             diabetes_type := req.diabetes_type.toColS
             cvd_risk := req.cvd_risk.toColS
             cvd_treatment_type := req.cvd_treatment_type.toColS
             created_at := req.created_at.getD now }]
           nextPatientId := s.nextPatientId + 1 })

/-- Body of `PUT /api/patients/:id` (same fields, no `created_at`, and
`mrn`/`patient_type` are bound raw, without the `||` defaults). -/
structure UpdateReq where
  mrn : JVal
  name : JVal
  age : JVal
  gender : JVal
  contact : JVal
  conditions : JVal
  patient_type : JVal
  region : JVal
  zone : JVal
  woreda : JVal
  kebele : JVal
  treatment_type : JVal
  diabetes_type : JVal
  cvd_risk : JVal
  cvd_treatment_type : JVal

def UpdateReq.hasUndefBound (req : UpdateReq) : Bool :=
  req.mrn = .undefined || req.name = .undefined || req.age = .undefined ||
  req.gender = .undefined || req.contact = .undefined || req.conditions = .undefined ||
  req.patient_type = .undefined || req.region = .undefined || req.zone = .undefined ||
  req.woreda = .undefined || req.kebele = .undefined ||
  req.treatment_type = .undefined || req.diabetes_type = .undefined ||
  req.cvd_risk = .undefined || req.cvd_treatment_type = .undefined

/-- `PUT /api/patients/:id`: one UPDATE replacing every listed column of
the matching row with the request value (succeeding even when no row
matches).  Binding `undefined`, setting `name` to NULL, or moving `mrn`
onto another row's value throws and is caught as a 500, leaving the row
unchanged. -/
def updatePatient (s : DB) (pid : Nat) (req : UpdateReq) : Resp × DB :=
  if req.hasUndefBound then (errResp 500 "Internal server error", s)
  else
    match req.name.toColS with
    | none => (errResp 500 "Internal server error", s)
    | some nm =>
      if req.mrn.toColS ≠ none ∧
         s.patients.any (fun p => p.id ≠ pid ∧ p.mrn = req.mrn.toColS) then
        (errResp 500 "Internal server error", s)
      else
        (⟨200, none⟩,
         { s with
           patients := s.patients.map (fun p =>
             if p.id = pid then
               { p with
                 mrn := req.mrn.toColS
                 name := nm
                 age := req.age.toColI
                 gender := req.gender.toColS
                 contact := req.contact.toColS
                 conditions := req.conditions.toColS
                 patient_type := req.patient_type.toColS
                 region := req.region.toColS
                 zone := req.zone.toColS
                 woreda := req.woreda.toColS
                 kebele := req.kebele.toColS
                 treatment_type := req.treatment_type.toColS
                 diabetes_type := req.diabetes_type.toColS
                 cvd_risk := req.cvd_risk.toColS
                 cvd_treatment_type := req.cvd_treatment_type.toColS }
             else p) })

/-- The transaction body of `DELETE /api/patients/:id`:
`DELETE FROM visits WHERE patient_id = ?` then
`DELETE FROM patients WHERE id = ?`.  SQL `=` never matches a NULL
`patient_id`. -/
def cascadeDelete (s : DB) (pid : Nat) : DB :=
  { s with
    visits := s.visits.filter (fun v => v.patient_id ≠ some pid)
    patients := s.patients.filter (fun p => p.id ≠ pid) }

/-- `DELETE /api/patients/:id`.  `pid` is the `parseInt` of the path
segment (`none` = NaN → 400).  `dbFail` models a driver exception inside
the transaction; better-sqlite3 rolls the whole transaction back on a
throw, so failure leaves the store exactly as it was. -/
def deletePatientEp (s : DB) (pid : Option Nat) (dbFail : Bool) : Resp × DB :=
  match pid with
  | none => (errResp 400 "Invalid patient ID", s)
  | some pid =>
    if dbFail then (errResp 500 "Internal server error", s)
    else (okResp, cascadeDelete s pid)

/-- `DELETE /api/visits/:id`.  `vid` is the `parseInt` of the path
segment (`none` = NaN → 400); `info.changes === 0` → 404. -/
def deleteVisitEp (s : DB) (vid : Option Nat) : Resp × DB :=
  match vid with
  | none => (errResp 400 "Invalid visit ID", s)
  | some vid =>
    let remaining := s.visits.filter (fun v => v.id ≠ vid)
    if remaining.length = s.visits.length then
      (errResp 404 "Visit not found", s)
    else
      (okResp, { s with visits := remaining })

/-- Body of `POST /api/visits`. -/
structure VisitReq where
  patient_id : JVal
  systolic_bp : JVal
  diastolic_bp : JVal
  heart_rate : JVal
  temperature : JVal
  respiratory_rate : JVal
  spo2 : JVal
  blood_sugar_level : JVal
  hba1c : JVal
  creatinine : JVal
  cholesterol : JVal
  triglycerides : JVal
  urinalysis : JVal
  weight : JVal
  notes : JVal
  complications : JVal

/-- The side effect run by `POST /api/visits` before its INSERT:
`UPDATE patients SET patient_type = 'Repeat' WHERE id = ?`, `tC` being
the bound `patient_id` (SQL `=` never matches when it is NULL). -/
def markRepeat (s : DB) (tC : Option Nat) : DB :=
  { s with
    patients := s.patients.map (fun p =>
      if some p.id = tC then { p with patient_type := some "Repeat" } else p) }

/-- `POST /api/visits`.  The handler first runs the `markRepeat` UPDATE —
outside any transaction — and only then the INSERT.  The numeric vitals
pass through `n` (so `undefined`/`''` become NULL), but `urinalysis`,
`notes` and `complications` are bound raw: `undefined` there makes the
INSERT throw AFTER the UPDATE has already been applied, and the catch
reports 500.  A `patient_id` of `undefined` makes the UPDATE itself
throw, before any change.  `visit_date` is absent from the INSERT, so it
takes its `DATE('now')` default, `today`.  No check relates `patient_id`
to an existing patient row: the schema's FOREIGN KEY is declared but the
app never issues `PRAGMA foreign_keys = ON`, so SQLite does not enforce
it. -/
def postVisit (s : DB) (req : VisitReq) (today : Date) : Resp × DB :=
  if req.patient_id = .undefined then (errResp 500 "Internal server error", s)
  else if req.urinalysis = .undefined ∨ req.notes = .undefined ∨
          req.complications = .undefined then
    (errResp 500 "Internal server error", markRepeat s req.patient_id.toColI)
  else
    let s1 := markRepeat s req.patient_id.toColI
    (okResp,
     { s1 with
         visits := s1.visits ++ [{
           id := s1.nextVisitId
           patient_id := req.patient_id.toColI
           visit_date := today
           systolic_bp := jsN req.systolic_bp
           diastolic_bp := jsN req.diastolic_bp
           heart_rate := jsN req.heart_rate
           temperature := jsN req.temperature
           respiratory_rate := jsN req.respiratory_rate
           spo2 := jsN req.spo2
           blood_sugar_level := jsN req.blood_sugar_level
           hba1c := jsN req.hba1c
           creatinine := jsN req.creatinine
           cholesterol := jsN req.cholesterol
           triglycerides := jsN req.triglycerides
           urinalysis := req.urinalysis
           weight := jsN req.weight
           notes := req.notes
           complications := req.complications }]
         nextVisitId := s1.nextVisitId + 1 })

/-- The patient-side WHERE clause of `/api/reports/summary`:
`strftime('%m', created_at) = ? AND strftime('%Y', created_at) = ?`, with
the month parameter first run through `padStart(2, '0')`. -/
def patientInWindow (w : Option (Nat × Nat)) (p : Patient) : Bool :=
  match w with
  | none => true
  | some (m, y) =>
    (strftimeM p.created_at == padStart2 (decRepr m)) &&
    (strftimeY p.created_at == decRepr y)

/-- The visit-side WHERE clause of `/api/reports/summary`:
`strftime('%m', visit_date) = ? AND strftime('%Y', visit_date) = ?`. -/
def visitInWindow (w : Option (Nat × Nat)) (v : Visit) : Bool :=
  match w with
  | none => true
  | some (m, y) =>
    (strftimeM v.visit_date == padStart2 (decRepr m)) &&
    (strftimeY v.visit_date == decRepr y)

/-- `conditions LIKE '%needle%'` for a patient row; a NULL `conditions`
makes the LIKE evaluate to NULL and the surrounding CASE yield 0. -/
def hasCond (p : Patient) (needle : String) : Bool :=
  match p.conditions with
  | none => false
  | some c => likeContains c needle

/-- Bucket `hypertension_only`:
`conditions LIKE '%Hypertension%' AND conditions NOT LIKE '%Diabetes%'`. -/
def bHypOnly (p : Patient) : Bool :=
  hasCond p "Hypertension" && !hasCond p "Diabetes"

/-- Bucket `diabetes_only`:
`conditions LIKE '%Diabetes%' AND conditions NOT LIKE '%Hypertension%'`. -/
def bDiaOnly (p : Patient) : Bool :=
  hasCond p "Diabetes" && !hasCond p "Hypertension"

/-- Bucket `both`:
`conditions LIKE '%Hypertension%' AND conditions LIKE '%Diabetes%'`. -/
def bBoth (p : Patient) : Bool :=
  hasCond p "Hypertension" && hasCond p "Diabetes"

/-- The aggregates of `GET /api/reports/summary`.  `windowedVisits` is
the set of visit rows passing the window filter — the candidate set of
the `recentVisits` query, whose final join with the patient name,
`ORDER BY visit_date DESC` and `LIMIT 10` are presentation of that set
and are not re-modelled.  The `|| 0` coercions of the SQL NULL sums are
absorbed by counting over lists (an empty count is already 0). -/
structure Summary where
  totalPatients : Nat
  newPatients : Nat
  repeatPatients : Nat
  hypertension_only : Nat
  diabetes_only : Nat
  condBoth : Nat
  male : Nat
  female : Nat
  other : Nat
  windowedVisits : List Visit
deriving DecidableEq

/-- `GET /api/reports/summary`. -/
def summaryOf (s : DB) (w : Option (Nat × Nat)) : Summary :=
  let ps := s.patients.filter (patientInWindow w)
  { totalPatients := ps.length
    newPatients := ps.countP (fun p => p.patient_type == some "New")
    repeatPatients := ps.countP (fun p => p.patient_type == some "Repeat")
    hypertension_only := ps.countP bHypOnly
    diabetes_only := ps.countP bDiaOnly
    condBoth := ps.countP bBoth
    male := ps.countP (fun p => p.gender == some "Male")
    female := ps.countP (fun p => p.gender == some "Female")
    other := ps.countP (fun p => p.gender == some "Other")
    windowedVisits := s.visits.filter (visitInWindow w) }

/-- `val.replace(/\D/g, '')` in the new-patient Age input. -/
def stripNonDigits (s : String) : String :=
  String.mk (s.toList.filter Char.isDigit)

/-- JS `parseInt` on an all-digit string (the only shape it is applied
to in the Age handler, whose value was just stripped to digits). -/
def parseDigits (s : String) : Nat :=
  s.toList.foldl (fun a c => a * 10 + (c.toNat - 48)) 0

/-- The `onChange` handler of the new-patient Age input: strip
non-digits, then keep the previous field value unless the result is
empty or parses into 1..99. -/
def ageInputChange (cur input : String) : String :=
  let val := stripNonDigits input
  if val = "" ∨ (1 ≤ parseDigits val ∧ parseDigits val ≤ 99) then val else cur

/-! Concrete sample data used by the witnesses and counterexamples below. -/

def d1 : Date := ⟨2024, 5, 10⟩

def d2 : Date := ⟨2024, 5, 12⟩

/-- A patient row as `POST /api/patients` stores it. -/
def samplePatient : Patient :=
  { id := 1, mrn := some "100001", name := "Abebe", age := some 45
    gender := some "Male", contact := none, patient_type := some "New"
    conditions := some "Hypertension, Diabetes", region := none, zone := none
    woreda := none, kebele := none, treatment_type := none
    diabetes_type := none, cvd_risk := none, cvd_treatment_type := none
    created_at := d1 }

def repeatPatientRow : Patient :=
  { samplePatient with id := 2, mrn := some "100002", patient_type := some "Repeat" }

def sampleVisit : Visit :=
  { id := 1, patient_id := some 1, visit_date := d2
    systolic_bp := .num 120, diastolic_bp := .num 80, heart_rate := .null
    temperature := .null, respiratory_rate := .null, spo2 := .null
    blood_sugar_level := .null, hba1c := .null, creatinine := .null
    cholesterol := .null, triglycerides := .null, urinalysis := .str "Normal"
    weight := .null, notes := .str "", complications := .null }

def oneDb : DB := { DB.empty with patients := [samplePatient], nextPatientId := 2 }

def twoPatientDb : DB :=
  { DB.empty with patients := [samplePatient, repeatPatientRow], nextPatientId := 3 }

/-- A well-formed registration body (age 45, conditions both). -/
def basePatientReq : PatientReq :=
  { mrn := .str "100001", name := .str "Abebe", age := .num 45
    gender := .str "Male", contact := .null
    conditions := .str "Hypertension, Diabetes", patient_type := .null
    region := .null, zone := .null, woreda := .null, kebele := .null
    treatment_type := .null, diabetes_type := .null, cvd_risk := .null
    cvd_treatment_type := .null, created_at := some d1 }

/-- A registration body carrying a `patient_type` that is neither "New"
nor "Repeat" — the endpoint stores it verbatim (`patient_type || 'New'`). -/
def otherTypeReq : PatientReq :=
  { basePatientReq with patient_type := .str "Returning", mrn := .str "222222" }

/-- A registration body re-using the MRN of `basePatientReq`. -/
def dupMrnReq : PatientReq := { basePatientReq with name := .str "Marta" }

/-- A registration body with age 150, outside the documented 1–99. -/
def age150Req : PatientReq :=
  { basePatientReq with age := .num 150, mrn := .str "333333" }

def c3db : DB := (createPatient DB.empty otherTypeReq 0 d1).2

def c7db : DB := (createPatient DB.empty basePatientReq 0 d1).2

/-- A well-formed visit body for patient 1. -/
def visitReqA : VisitReq :=
  { patient_id := .num 1, systolic_bp := .num 120, diastolic_bp := .num 80
    heart_rate := .null, temperature := .null, respiratory_rate := .null
    spo2 := .null, blood_sugar_level := .null, hba1c := .null
    creatinine := .null, cholesterol := .null, triglycerides := .null
    urinalysis := .str "Normal", weight := .null, notes := .str ""
    complications := .str "" }

/-- A visit body naming a patient id that exists in no patient row. -/
def orphanVisitReq : VisitReq := visitReqA

/-- A visit body whose raw-bound `urinalysis` field is absent: the INSERT
throws when binding it, after the patient UPDATE has run. -/
def failVisitReq : VisitReq := { visitReqA with urinalysis := .undefined }

def dbA : DB := (createPatient DB.empty basePatientReq 0 d1).2

def dbB : DB := (postVisit dbA visitReqA d2).2

/-- A PUT body that writes `patient_type` back to "New". -/
def updateReqNew : UpdateReq :=
  { mrn := .str "100001", name := .str "Abebe", age := .num 45
    gender := .str "Male", contact := .null
    conditions := .str "Hypertension, Diabetes", patient_type := .str "New"
    region := .null, zone := .null, woreda := .null, kebele := .null
    treatment_type := .null, diabetes_type := .null, cvd_risk := .null
    cvd_treatment_type := .null }

def dbC : DB := (updatePatient dbB 1 updateReqNew).2

def sigDb : DB :=
  { DB.empty with
    users := [⟨1, "staff1", some "pw", some "staff1", some "staff"⟩]
    nextUserId := 2 }

def sigReq : SignupReq := ⟨.str "staff1", .str "secret", .undefined, .undefined⟩

/-! Helper lemmas about decimal rendering, counting and the handlers. -/

theorem digitChar_toNat (d : Nat) (hd : d < 10) :
    (Nat.digitChar d).toNat = 48 + d := by
  interval_cases d <;> rfl

theorem parse_decDigitsAux (fuel : Nat) :
    ∀ n, n < fuel → parseDigits (String.mk (decDigitsAux fuel n)) = n := by
  induction fuel with
  | zero => intro n h; omega
  | succ f ih =>
    intro n h
    show (decDigitsAux (f + 1) n).foldl (fun a c => a * 10 + (c.toNat - 48)) 0 = n
    by_cases h10 : n < 10
    · rw [show decDigitsAux (f + 1) n = [Nat.digitChar n] from by
        simp [decDigitsAux, h10]]
      simp [digitChar_toNat n h10]
    · rw [show decDigitsAux (f + 1) n
          = decDigitsAux f (n / 10) ++ [Nat.digitChar (n % 10)] from by
        simp [decDigitsAux, h10]]
      rw [List.foldl_append]
      have hr : (decDigitsAux f (n / 10)).foldl
          (fun a c => a * 10 + (c.toNat - 48)) 0 = n / 10 :=
        ih (n / 10) (by omega)
      rw [hr]
      have hd := digitChar_toNat (n % 10) (Nat.mod_lt n (by omega))
      simp [hd]
      omega

theorem parse_decRepr (n : Nat) : parseDigits (decRepr n) = n :=
  parse_decDigitsAux (n + 1) n (Nat.lt_succ_self n)

theorem decRepr_eq_iff {a b : Nat} : decRepr a = decRepr b ↔ a = b := by
  constructor
  · intro h
    have ha := parse_decRepr a
    rw [h, parse_decRepr b] at ha
    exact ha.symm
  · intro h
    rw [h]

theorem padMonth_inj {a b : Nat} (ha1 : 1 ≤ a) (ha2 : a ≤ 12)
    (hb1 : 1 ≤ b) (hb2 : b ≤ 12) :
    padStart2 (decRepr a) = padStart2 (decRepr b) ↔ a = b := by
  interval_cases a <;> interval_cases b <;> decide

theorem countP_condition_partition (l : List Patient) :
    l.countP bHypOnly + l.countP bDiaOnly + l.countP bBoth
      = l.countP (fun p => hasCond p "Hypertension" || hasCond p "Diabetes") := by
  induction l with
  | nil => rfl
  | cons p t ih =>
    simp only [List.countP_cons]
    cases hH : hasCond p "Hypertension" <;> cases hD : hasCond p "Diabetes" <;>
      simp [bHypOnly, bDiaOnly, bBoth, hH, hD] <;> omega

theorem countP_new_repeat : ∀ l : List Patient,
    (∀ p ∈ l, p.patient_type = some "New" ∨ p.patient_type = some "Repeat") →
    l.countP (fun p => p.patient_type == some "New")
      + l.countP (fun p => p.patient_type == some "Repeat") = l.length := by
  intro l
  induction l with
  | nil => intro _; rfl
  | cons p t ih =>
    intro h
    have hp := h p (List.mem_cons_self p t)
    have ih2 := ih (fun q hq => h q (List.mem_cons_of_mem p hq))
    simp only [List.countP_cons, List.length_cons]
    rcases hp with h1 | h1 <;> rw [h1] <;> simp <;> omega

theorem mem_markRepeat {s : DB} {tC : Option Nat} {p : Patient}
    (hp : p ∈ (markRepeat s tC).patients) (hid : some p.id = tC) :
    p.patient_type = some "Repeat" := by
  rcases List.mem_map.mp hp with ⟨q, hq, hfq⟩
  by_cases h : some q.id = tC
  · rw [if_pos h] at hfq
    rw [← hfq]
  · rw [if_neg h] at hfq
    subst hfq
    exact absurd hid h

theorem postVisit_patients (s : DB) (req : VisitReq) (today : Date)
    (hu : req.patient_id ≠ .undefined) :
    (postVisit s req today).2.patients
      = (markRepeat s req.patient_id.toColI).patients := by
  unfold postVisit
  rw [if_neg hu]
  split <;> rfl

theorem postVisit_fail_state (s : DB) (req : VisitReq) (today : Date)
    (hu : req.patient_id ≠ .undefined)
    (hf : req.urinalysis = .undefined ∨ req.notes = .undefined ∨
          req.complications = .undefined) :
    postVisit s req today
      = (errResp 500 "Internal server error",
         markRepeat s req.patient_id.toColI) := by
  unfold postVisit
  rw [if_neg hu, if_pos hf]

/-- Claim C1 counterexample: after patient 1's first visit its
`patient_type` is "Repeat", but a subsequent `PUT /api/patients/1`
carrying `patient_type: "New"` reverts it to "New", so the type does not
stay "Repeat" under every subsequent operation. -/
theorem patientType_revert_cex :
    dbB.patients.map (fun p => p.patient_type) = [some "Repeat"]
    ∧ dbC.patients.map (fun p => p.patient_type) = [some "New"] := by
  decide

/-- Claim C1 (amended): a patient registered without a truthy
`patient_type` starts as "New"; `POST /api/visits` sets the owning
patient's `patient_type` to "Repeat" unconditionally; deleting a visit
never changes any patient row; but `PUT /api/patients/:id` overwrites
`patient_type` with whatever value the request carries, so it can write
a "Repeat" patient back to "New". -/
theorem patientType_lifecycle :
    (∀ (s : DB) (req : PatientReq) (rnd : Nat) (now : Date),
      req.patient_type.falsy = true →
      ∀ p ∈ (createPatient s req rnd now).2.patients, p ∉ s.patients →
        p.patient_type = some "New")
    ∧ (∀ (s : DB) (req : VisitReq) (today : Date),
      ∀ p ∈ (postVisit s req today).2.patients,
        some p.id = req.patient_id.toColI → p.patient_type = some "Repeat")
    ∧ (∀ (s : DB) (vid : Option Nat),
      (deleteVisitEp s vid).2.patients = s.patients)
    ∧ (∀ (s : DB) (pid : Nat) (req : UpdateReq),
      (updatePatient s pid req).1.status = 200 →
      ∀ p ∈ (updatePatient s pid req).2.patients, p.id = pid →
        p.patient_type = req.patient_type.toColS) := by
  refine ⟨?_, ?_, ?_, ?_⟩
  · intro s req rnd now hty p hp hnotin
    simp only [createPatient] at hp
    split at hp
    · exact absurd hp hnotin
    · split at hp
      · exact absurd hp hnotin
      · split at hp
        · exact absurd hp hnotin
        · simp only [List.mem_append, List.mem_singleton] at hp
          rcases hp with hp | hp
          · exact absurd hp hnotin
          · subst hp
            simp [jsOr, hty, JVal.toColS]
  · intro s req today p hp hid
    have hu : req.patient_id ≠ .undefined := by
      intro h
      rw [h] at hid
      simp [JVal.toColI] at hid
    rw [postVisit_patients s req today hu] at hp
    exact mem_markRepeat hp hid
  · intro s vid
    cases vid with
    | none => rfl
    | some v =>
      simp only [deleteVisitEp]
      split <;> rfl
  · intro s pid req hst p hp hpid
    unfold updatePatient at hst hp
    split at hst
    · simp [errResp] at hst
    next h1 =>
      split at hst
      · simp [errResp] at hst
      next nm hn =>
        split at hst
        · simp [errResp] at hst
        next h2 =>
          simp only [if_neg h1, hn] at hp
          rw [if_neg h2] at hp
          simp only [List.mem_map] at hp
          rcases hp with ⟨q, hq, hfq⟩
          by_cases h3 : q.id = pid
          · rw [if_pos h3] at hfq
            rw [← hfq]
          · rw [if_neg h3] at hfq
            subst hfq
            exact absurd hpid h3

/-- Claim C1 witness: in a one-patient store, recording a visit for
patient 1 leaves that patient marked "Repeat". -/
theorem patientType_lifecycle_witness :
    ({ samplePatient with patient_type := some "Repeat" } : Patient).patient_type
      = some "Repeat" :=
  patientType_lifecycle.2.1 oneDb visitReqA d2
    { samplePatient with patient_type := some "Repeat" } (by decide) (by decide)

/-- Claim C2: the three condition buckets are decided by substring
containment on `conditions` and partition the windowed patients having
at least one of the two conditions: a patient whose `conditions`
contains both substrings falls in `both` and neither "only" bucket, and
one containing exactly one falls only in the corresponding "only"
bucket; every bucket count is the count of windowed patients satisfying
that bucket's predicate. -/
theorem condition_buckets_partition (s : DB) (w : Option (Nat × Nat)) (p : Patient) :
    (summaryOf s w).hypertension_only + (summaryOf s w).diabetes_only
        + (summaryOf s w).condBoth
      = (s.patients.filter (patientInWindow w)).countP
          (fun q => hasCond q "Hypertension" || hasCond q "Diabetes")
    ∧ (summaryOf s w).hypertension_only
        = (s.patients.filter (patientInWindow w)).countP bHypOnly
    ∧ (summaryOf s w).diabetes_only
        = (s.patients.filter (patientInWindow w)).countP bDiaOnly
    ∧ (summaryOf s w).condBoth
        = (s.patients.filter (patientInWindow w)).countP bBoth
    ∧ (hasCond p "Hypertension" = true → hasCond p "Diabetes" = true →
        bBoth p = true ∧ bHypOnly p = false ∧ bDiaOnly p = false)
    ∧ (hasCond p "Hypertension" = true → hasCond p "Diabetes" = false →
        bHypOnly p = true ∧ bBoth p = false ∧ bDiaOnly p = false)
    ∧ (hasCond p "Diabetes" = true → hasCond p "Hypertension" = false →
        bDiaOnly p = true ∧ bBoth p = false ∧ bHypOnly p = false) := by
  refine ⟨countP_condition_partition _, rfl, rfl, rfl, ?_, ?_, ?_⟩ <;>
    · intro hA hB
      simp [bBoth, bHypOnly, bDiaOnly, hA, hB]

/-- Claim C2 witness: a patient with conditions
"Hypertension, Diabetes" is in the `both` bucket and in neither "only"
bucket. -/
theorem condition_buckets_partition_witness :
    bBoth samplePatient = true ∧ bHypOnly samplePatient = false
      ∧ bDiaOnly samplePatient = false :=
  (condition_buckets_partition DB.empty none samplePatient).2.2.2.2.1
    (by decide) (by decide)

/-- Claim C3 counterexample: `POST /api/patients` stores any truthy
`patient_type` verbatim ("Returning" here), and such a patient counts in
`totalPatients` but in neither `newPatients` nor `repeatPatients`, so
the two do not always sum to the total. -/
theorem summary_counts_cex :
    (summaryOf c3db none).newPatients + (summaryOf c3db none).repeatPatients = 0
    ∧ (summaryOf c3db none).totalPatients = 1 := by
  decide

/-- Claim C3 (amended): `newPatients + repeatPatients = totalPatients`
holds over any window whenever every stored patient's `patient_type` is
"New" or "Repeat" — the only values the API assigns on its own; the
identity can only break when a client supplies some other (or a null)
`patient_type` through registration or update. -/
theorem summary_counts_partition (s : DB) (w : Option (Nat × Nat))
    (h : ∀ p ∈ s.patients,
      p.patient_type = some "New" ∨ p.patient_type = some "Repeat") :
    (summaryOf s w).newPatients + (summaryOf s w).repeatPatients
      = (summaryOf s w).totalPatients :=
  countP_new_repeat _ (fun p hp => h p (List.mem_filter.mp hp).1)

/-- Claim C3 witness: the identity at a store holding one "New" and one
"Repeat" patient. -/
theorem summary_counts_partition_witness :
    (summaryOf twoPatientDb none).newPatients
      + (summaryOf twoPatientDb none).repeatPatients
      = (summaryOf twoPatientDb none).totalPatients :=
  summary_counts_partition twoPatientDb none (by decide)

/-- Claim C4: `DELETE /api/patients/:id` is transactional: it either
fails with a 500 and leaves the store exactly as it was, or succeeds,
removing exactly the visits whose `patient_id` equals the patient's id
and exactly that patient row, leaving every other patient row, every
other visit and the users table unchanged — no intermediate state is
observable. -/
theorem deletePatient_cascade_atomic (s : DB) (pid : Nat) (f : Bool) :
    ((deletePatientEp s (some pid) f).1.status = 500
      ∧ (deletePatientEp s (some pid) f).2 = s)
    ∨ ((deletePatientEp s (some pid) f).1.status = 200
      ∧ (∀ v : Visit, v ∈ (deletePatientEp s (some pid) f).2.visits
          ↔ (v ∈ s.visits ∧ v.patient_id ≠ some pid))
      ∧ (∀ q : Patient, q ∈ (deletePatientEp s (some pid) f).2.patients
          ↔ (q ∈ s.patients ∧ q.id ≠ pid))
      ∧ (deletePatientEp s (some pid) f).2.users = s.users) := by
  cases f with
  | true => exact Or.inl ⟨rfl, rfl⟩
  | false =>
    refine Or.inr ⟨rfl, ?_, ?_, rfl⟩
    · intro v
      simp [deletePatientEp, cascadeDelete, List.mem_filter]
    · intro q
      simp [deletePatientEp, cascadeDelete, List.mem_filter]

/-- Claim C5: with no window every patient and every visit passes the
summary filters, and the aggregates range over the whole store; with a
window `(m, y)` a patient is included iff the month and year of its
registration timestamp `created_at` equal the window, and a visit is
included iff the month and year of its `visit_date` do — the visit row
carries no creation timestamp and none is consulted. -/
theorem summary_windowing (s : DB) (p : Patient) (v : Visit) (m y : Nat)
    (hm1 : 1 ≤ m) (hm2 : m ≤ 12)
    (hpm1 : 1 ≤ p.created_at.month) (hpm2 : p.created_at.month ≤ 12)
    (hvm1 : 1 ≤ v.visit_date.month) (hvm2 : v.visit_date.month ≤ 12) :
    patientInWindow none p = true
    ∧ visitInWindow none v = true
    ∧ (summaryOf s none).totalPatients = s.patients.length
    ∧ (summaryOf s none).windowedVisits = s.visits
    ∧ (patientInWindow (some (m, y)) p = true
        ↔ (p.created_at.month = m ∧ p.created_at.year = y))
    ∧ (visitInWindow (some (m, y)) v = true
        ↔ (v.visit_date.month = m ∧ v.visit_date.year = y))
    ∧ (summaryOf s (some (m, y))).totalPatients
        = (s.patients.filter (patientInWindow (some (m, y)))).length
    ∧ (summaryOf s (some (m, y))).windowedVisits
        = s.visits.filter (visitInWindow (some (m, y))) := by
  refine ⟨rfl, rfl, ?_, ?_, ?_, ?_, rfl, rfl⟩
  · show (s.patients.filter (patientInWindow none)).length = s.patients.length
    have hall : ∀ a ∈ s.patients, patientInWindow none a = true := fun a _ => rfl
    rw [List.filter_eq_self.mpr hall]
  · show s.visits.filter (visitInWindow none) = s.visits
    have hall : ∀ a ∈ s.visits, visitInWindow none a = true := fun a _ => rfl
    exact List.filter_eq_self.mpr hall
  · show ((padStart2 (decRepr p.created_at.month) == padStart2 (decRepr m))
        && (decRepr p.created_at.year == decRepr y)) = true
      ↔ (p.created_at.month = m ∧ p.created_at.year = y)
    rw [Bool.and_eq_true, beq_iff_eq, beq_iff_eq,
      padMonth_inj hpm1 hpm2 hm1 hm2, decRepr_eq_iff]
  · show ((padStart2 (decRepr v.visit_date.month) == padStart2 (decRepr m))
        && (decRepr v.visit_date.year == decRepr y)) = true
      ↔ (v.visit_date.month = m ∧ v.visit_date.year = y)
    rw [Bool.and_eq_true, beq_iff_eq, beq_iff_eq,
      padMonth_inj hvm1 hvm2 hm1 hm2, decRepr_eq_iff]

/-- Claim C5 witness: the May-2024 window includes the sample patient
registered on 2024-05-10. -/
theorem summary_windowing_witness :
    patientInWindow (some (5, 2024)) samplePatient = true
      ↔ (samplePatient.created_at.month = 5
          ∧ samplePatient.created_at.year = 2024) :=
  (summary_windowing DB.empty samplePatient sampleVisit 5 2024
    (by decide) (by decide) (by decide) (by decide) (by decide)
    (by decide)).2.2.2.2.1

/-- Claim C6: deleting a visit whose numeric id matches no row yields a
404 with an error body — not a 500 — and leaves the store unchanged. -/
theorem deleteVisit_notFound (s : DB) (vid : Nat)
    (h : ∀ v ∈ s.visits, v.id ≠ vid) :
    (deleteVisitEp s (some vid)).1.status = 404
    ∧ (deleteVisitEp s (some vid)).1.status ≠ 500
    ∧ (deleteVisitEp s (some vid)).1.error = some "Visit not found"
    ∧ (deleteVisitEp s (some vid)).2 = s := by
  have hfull : s.visits.filter (fun v : Visit => v.id ≠ vid) = s.visits :=
    List.filter_eq_self.mpr (fun v hv => by simpa using h v hv)
  have hres : deleteVisitEp s (some vid) = (errResp 404 "Visit not found", s) := by
    show (if (s.visits.filter (fun v : Visit => v.id ≠ vid)).length
            = s.visits.length
          then (errResp 404 "Visit not found", s)
          else (okResp,
            { s with visits := s.visits.filter (fun v : Visit => v.id ≠ vid) }))
        = (errResp 404 "Visit not found", s)
    rw [if_pos (by rw [hfull])]
  rw [hres]
  exact ⟨rfl, by simp [errResp], rfl, rfl⟩

/-- Claim C6 witness: deleting visit 99 from a store with no visits. -/
theorem deleteVisit_notFound_witness :
    (deleteVisitEp oneDb (some 99)).1.status = 404
    ∧ (deleteVisitEp oneDb (some 99)).1.status ≠ 500
    ∧ (deleteVisitEp oneDb (some 99)).1.error = some "Visit not found"
    ∧ (deleteVisitEp oneDb (some 99)).2 = oneDb :=
  deleteVisit_notFound oneDb 99 (by decide)

/-- Claim C7 counterexample: registering a patient whose MRN already
exists hits the generic catch of `POST /api/patients` and returns 500
with the generic message — not the claimed 400 — though the store is
indeed unchanged. -/
theorem duplicate_mrn_cex :
    (createPatient c7db dupMrnReq 0 d1).1.status = 500
    ∧ ¬(createPatient c7db dupMrnReq 0 d1).1.status = 400
    ∧ (createPatient c7db dupMrnReq 0 d1).2 = c7db := by
  decide

/-- Claim C7 (amended): a signup whose username already exists fails
with 400 and the specific message "Username already exists", leaving the
store unchanged; but a registration whose MRN already exists falls into
the generic catch and fails with 500 and the generic message (the store
again unchanged) — only signup gives the uniqueness violation a 400. -/
theorem uniqueness_violation_errors :
    (∀ (s : DB) (req : SignupReq),
      req.username.falsy = false → req.password.falsy = false →
      (∃ u ∈ s.users, some u.username = req.username.toColS) →
      signup s req = (errResp 400 "Username already exists", s))
    ∧ (∀ (s : DB) (req : PatientReq) (rnd : Nat) (now : Date),
      s.patients.any
          (fun p => p.mrn = (jsOr req.mrn (.str (genMrn rnd))).toColS) = true →
      createPatient s req rnd now = (errResp 500 "Internal server error", s)) := by
  constructor
  · intro s req hu hp hex
    rcases hex with ⟨u, hum, huq⟩
    cases htc : req.username.toColS with
    | none =>
      rw [htc] at huq
      exact absurd huq (by simp)
    | some uname =>
      rw [htc] at huq
      have huname : u.username = uname := by simpa using huq
      have hany : s.users.any (fun x => x.username = uname) = true :=
        List.any_eq_true.mpr ⟨u, hum, by simp [huname]⟩
      simp [signup, hu, hp, htc, hany]
  · intro s req rnd now hdup
    by_cases h1 : req.hasUndefBound = true
    · simp [createPatient, h1]
    · cases hn : req.name.toColS with
      | none => simp [createPatient, h1, hn]
      | some nm => simp [createPatient, h1, hn, hdup]

/-- Claim C7 witness: signing up the already-taken username "staff1". -/
theorem uniqueness_violation_errors_witness :
    signup sigDb sigReq = (errResp 400 "Username already exists", sigDb) :=
  uniqueness_violation_errors.1 sigDb sigReq (by decide) (by decide) (by decide)

/-- Claim C8 counterexample: `POST /api/patients` accepts age 150 —
outside the documented 1–99 — with HTTP 200 and creates the row; the
server rejects nothing with a 400 validation error. -/
theorem age_validation_cex :
    (createPatient DB.empty age150Req 0 d1).1.status = 200
    ∧ (createPatient DB.empty age150Req 0 d1).2.patients.map (fun p => p.age)
        = [some 150] := by
  decide

/-- Claim C8 (amended): the registration endpoint validates nothing
server-side: any bindable request with a non-NULL name and a fresh MRN
succeeds with 200, storing whatever age it carries; the 1–99 age
restriction and required-field checks live only in the client form,
whose Age input keeps the field empty or at a value parsing into
1..99. -/
theorem registration_no_server_validation (s : DB) (req : PatientReq)
    (rnd : Nat) (now : Date) (cur input : String)
    (h1 : req.hasUndefBound = false)
    (h2 : req.name.toColS ≠ none)
    (h3 : s.patients.any
        (fun p => p.mrn = (jsOr req.mrn (.str (genMrn rnd))).toColS) = false)
    (hcur : cur = "" ∨ (1 ≤ parseDigits cur ∧ parseDigits cur ≤ 99)) :
    (createPatient s req rnd now).1.status = 200
    ∧ (∃ p ∈ (createPatient s req rnd now).2.patients,
        p.age = req.age.toColI)
    ∧ (ageInputChange cur input = ""
        ∨ (1 ≤ parseDigits (ageInputChange cur input)
            ∧ parseDigits (ageInputChange cur input) ≤ 99)) := by
  cases hn : req.name.toColS with
  | none => exact absurd hn h2
  | some nm =>
    have hsts : (createPatient s req rnd now).1.status = 200 := by
      simp [createPatient, h1, hn, h3, okResp]
    have hmap : (createPatient s req rnd now).2.patients.map (fun p => p.age)
        = s.patients.map (fun p => p.age) ++ [req.age.toColI] := by
      simp [createPatient, h1, hn, h3]
    refine ⟨hsts, ?_, ?_⟩
    · have hmem : req.age.toColI
          ∈ (createPatient s req rnd now).2.patients.map (fun p => p.age) := by
        rw [hmap]
        exact List.mem_append_right _ (List.mem_singleton_self _)
      rcases List.mem_map.mp hmem with ⟨p, hp, hpa⟩
      exact ⟨p, hp, hpa⟩
    · simp only [ageInputChange]
      split
      next hcond => exact hcond
      next hcond => exact hcur

/-- Claim C8 witness: a well-formed registration succeeds storing its
age, and the client Age filter keeps "45" on a junk keystroke. -/
theorem registration_no_server_validation_witness :
    (createPatient DB.empty basePatientReq 0 d1).1.status = 200
    ∧ (∃ p ∈ (createPatient DB.empty basePatientReq 0 d1).2.patients,
        p.age = basePatientReq.age.toColI)
    ∧ (ageInputChange "45" "9a9" = ""
        ∨ (1 ≤ parseDigits (ageInputChange "45" "9a9")
            ∧ parseDigits (ageInputChange "45" "9a9") ≤ 99)) :=
  registration_no_server_validation DB.empty basePatientReq 0 d1 "45" "9a9"
    (by decide) (by decide) (by decide) (by decide)

/-- Claim C9 (code bug): with `PRAGMA foreign_keys` never enabled, the
FOREIGN KEY declared on `visits` is not enforced: `POST /api/visits`
with a `patient_id` matching no patient row succeeds and creates an
orphan visit — here in a store with no patients at all. -/
theorem orphan_visit_created :
    (postVisit DB.empty orphanVisitReq d1).1.status = 200
    ∧ (postVisit DB.empty orphanVisitReq d1).2.visits.map (fun v => v.patient_id)
        = [some 1]
    ∧ (postVisit DB.empty orphanVisitReq d1).2.patients = [] := by
  decide

/-- Claim C10: `POST /api/visits` is not atomic: the patient UPDATE runs
before the INSERT and outside any transaction, so when the INSERT throws
(here: binding an absent `urinalysis`), the request reports 500 and no
visit row is created, yet the owning patient has already been marked
"Repeat". -/
theorem visit_update_not_atomic (s : DB) (req : VisitReq) (today : Date)
    (p : Patient) (hfail : req.urinalysis = .undefined)
    (hp : p ∈ s.patients) (hid : some p.id = req.patient_id.toColI) :
    (postVisit s req today).1.status = 500
    ∧ (postVisit s req today).2.visits = s.visits
    ∧ (∃ q ∈ (postVisit s req today).2.patients,
        q.id = p.id ∧ q.patient_type = some "Repeat") := by
  have hu : req.patient_id ≠ .undefined := by
    intro h
    rw [h] at hid
    simp [JVal.toColI] at hid
  have hstate := postVisit_fail_state s req today hu (Or.inl hfail)
  rw [hstate]
  refine ⟨rfl, rfl, ?_⟩
  refine ⟨{ p with patient_type := some "Repeat" }, ?_, rfl, rfl⟩
  have hmem := List.mem_map_of_mem
    (fun q : Patient =>
      if some q.id = req.patient_id.toColI
      then { q with patient_type := some "Repeat" } else q) hp
  have hmem2 : (if some p.id = req.patient_id.toColI
      then { p with patient_type := some "Repeat" } else p)
      ∈ (markRepeat s req.patient_id.toColI).patients := hmem
  rw [if_pos hid] at hmem2
  exact hmem2

/-- Claim C10 witness: an insert failure after the UPDATE in a
one-patient store leaves that patient "Repeat" with no visit row. -/
theorem visit_update_not_atomic_witness :
    (postVisit oneDb failVisitReq d2).1.status = 500
    ∧ (postVisit oneDb failVisitReq d2).2.visits = oneDb.visits
    ∧ (∃ q ∈ (postVisit oneDb failVisitReq d2).2.patients,
        q.id = samplePatient.id ∧ q.patient_type = some "Repeat") :=
  visit_update_not_atomic oneDb failVisitReq d2 samplePatient
    (by decide) (by decide) (by decide)
